import Mathlib

/-!
# Verification of the Nao image-search plugin (src/Nao.py)

A shallow embedding of the `NaoImageSearchPlugin` class. Python values that
flow through the plugin (event payloads, JSON response bodies, config values)
are modelled by the inductive type `JValue`; Python dictionaries become
association lists, JSON numbers are modelled as integers. Operations that can
raise a Python exception (`AttributeError` on `.get` of a non-dict,
`TypeError`/`IndexError` on indexing and iteration) return `Except Unit _`;
the `try/except` blocks of the source become explicit recovery on the
`.error` case. The network is modelled by an oracle `http : HttpRequest →
HttpResult`; the handler additionally returns the list of HTTP requests it
issued, so that "no HTTP call is made" is expressible. Logging and the
host-framework username extraction (`_log_plugin_action`,
`_extract_username`, defined in the plugin base class outside this
repository) have no effect on the returned value and are not modelled;
`_validate_plugin_response` (also host-framework code) is an abstract
parameter `validate : JValue → Bool`.
-/

namespace Nao

/-- Python/JSON values as they appear in the plugin's data flow. -/
inductive JValue where
  | null
  | bool (b : Bool)
  | num (n : Int)
  | str (s : String)
  | list (xs : List JValue)
  | obj (fields : List (String × JValue))

/-- Python truthiness (`bool(v)`): `None`, `False`, `0`, `""`, `[]`, and
an empty dict are falsy; everything else is truthy. -/
def isTruthy : JValue → Bool
  | .null => false
  | .bool b => b
  | .num n => n != 0
  | .str s => s != ""
  | .list xs => !xs.isEmpty
  | .obj fs => !fs.isEmpty

/-- Python `a or b`: `a` if `a` is truthy, else `b`. -/
def pyOr (a b : JValue) : JValue :=
  if isTruthy a then a else b

mutual

/-- Python `repr(v)`; the string case approximates escaping. -/
def pyRepr : JValue → String
  | .null => "None"
  | .bool b => if b then "True" else "False"
  | .num n => toString n
  | .str s => "\x27" ++ s ++ "\x27"
  | .list xs => "[" ++ pyReprListInner xs ++ "]"
  | .obj fs => "\x7b" ++ pyReprObjInner fs ++ "\x7d"

def pyReprListInner : List JValue → String
  | [] => ""
  | [x] => pyRepr x
  | x :: y :: rest => pyRepr x ++ ", " ++ pyReprListInner (y :: rest)

def pyReprObjInner : List (String × JValue) → String
  | [] => ""
  | [p] => "\x27" ++ p.1 ++ "\x27: " ++ pyRepr p.2
  | p :: q :: rest => "\x27" ++ p.1 ++ "\x27: " ++ pyRepr p.2 ++ ", " ++ pyReprObjInner (q :: rest)

end

/-- Python `str(v)` as used by f-string interpolation (`f"... \x7bv\x7d ..."`).
String escaping inside container `repr` is approximated (no claim depends
on it). -/
def pyStr : JValue → String
  | .str s => s
  | v => pyRepr v

/-- Python `d.get(k)` (default `None`): first matching key of the
association list, `None` when absent; raises (`AttributeError`) when the
receiver is not a dict. -/
def jget (v : JValue) (k : String) : Except Unit JValue :=
  match v with
  | .obj fs => .ok ((List.lookup k fs).getD .null)
  | _ => .error ()

/-- Python `d.get(k, dflt)`: as `jget` but with an explicit default. -/
def jgetD (v : JValue) (k : String) (dflt : JValue) : Except Unit JValue :=
  match v with
  | .obj fs => .ok ((List.lookup k fs).getD dflt)
  | _ => .error ()

/-- Python `v[0]`: first element of a list (IndexError on empty), first
character of a string, error (`TypeError`/`KeyError`) otherwise. -/
def pyIndex0 : JValue → Except Unit JValue
  | .list [] => .error ()
  | .list (x :: _) => .ok x
  | .str s =>
    match s.data with
    | [] => .error ()
    | c :: _ => .ok (.str (String.mk [c]))
  | _ => .error ()

/-- Contiguous-sublist test on lists, used for Python's substring operator. -/
def listContainsSub (needle : List Char) : List Char → Bool
  | [] => needle.isEmpty
  | c :: cs => List.isPrefixOf needle (c :: cs) || listContainsSub needle cs

/-- Python `needle in hay` for strings: case-sensitive substring test. -/
def strContainsSub (hay needle : String) : Bool :=
  listContainsSub needle.data hay.data

/-- Python `s.startswith(pre)`. -/
def pyStartsWith (s pre : String) : Bool :=
  List.isPrefixOf pre.data s.data

/-- The source's fixed endpoint `self.saucenao_api_url`. -/
def saucenao_api_url : String := "https://saucenao.com/search.php"

/-- The loop body of `_extract_images_from_note` (lines 72-80): skip
non-dict entries; for dict entries whose `type` starts with `"image/"`,
append `get("url") or get("thumbnailUrl")` when that value is truthy.
Calling `.startswith` on a non-string `type` value raises. -/
def extract_images_loop : List JValue → List JValue → Except Unit (List JValue)
  | [], images => .ok images
  | fi :: rest, images =>
    match fi with
    | .obj fields =>
      match (List.lookup "type" fields).getD (.str "") with
      | .str file_type =>
        if pyStartsWith file_type "image/" then
          let url := pyOr ((List.lookup "url" fields).getD .null)
                          ((List.lookup "thumbnailUrl" fields).getD .null)
          if isTruthy url then extract_images_loop rest (images ++ [url])
          else extract_images_loop rest images
        else extract_images_loop rest images
      | _ => .error ()
    | _ => extract_images_loop rest images

/-- `_extract_images_from_note` (lines 63-82). `note = note_data.get("note",
note_data)`; `files = note.get("files", [])`; then the collection loop.
Iterating a string or a dict yields characters/keys, none of which are
dicts, so those produce `[]`; iterating any other non-list raises. -/
def extract_images_from_note (note_data : JValue) : Except Unit (List JValue) :=
  Except.bind (jgetD note_data "note" note_data) fun note =>
  Except.bind (jgetD note "files" (.list [])) fun files =>
  match files with
  | .list items => extract_images_loop items []
  | .str _ => .ok []
  | .obj _ => .ok []
  | _ => .error ()

/-- `_has_trigger_tag` (lines 84-88): `text = note.get("text", "") or ""`;
then Python `self.trigger_tag in text` (substring on strings, membership on
lists and dicts, `TypeError` otherwise). -/
def has_trigger_tag (trigger_tag : String) (note_data : JValue) : Except Unit Bool :=
  Except.bind (jgetD note_data "note" note_data) fun note =>
  Except.bind (jgetD note "text" (.str "")) fun text0 =>
  match pyOr text0 (.str "") with
  | .str s => .ok (strContainsSub s trigger_tag)
  | .list xs => .ok (xs.any fun x => match x with | .str s => s == trigger_tag | _ => false)
  | .obj fs => .ok (fs.any fun p => p.1 == trigger_tag)
  | _ => .error ()

/-- One outbound `session.get(url, params=...)` call as the plugin builds
it: the endpoint and the query-parameter dict (as an association list in
insertion order). -/
structure HttpRequest where
  url : String
  params : List (String × JValue)

/-- What the network can do with a request: raise a transport-level error
(timeout, connection failure), or deliver a response with a status code
whose body either parses as JSON (`.ok`) or raises on `response.json()`
(`.error`). -/
inductive HttpResult where
  | transport_error
  | response (status : Nat) (body : Except Unit JValue)

/-- The parameter dict built at lines 94-104: insertion order
`output_type, api_key, url, numres, db`; `params.pop("api_key")` when the
configured key is falsy. -/
def search_params (api_key : JValue) (image_url : JValue) : List (String × JValue) :=
  let params : List (String × JValue) :=
    [("output_type", .str "2"), ("api_key", api_key), ("url", image_url),
     ("numres", .str "3"), ("db", .str "999")]
  if isTruthy api_key then params else params.filter fun p => p.1 != "api_key"

/-- `similarity = header.get("similarity", "0")` (line 131). -/
def saucenao_similarity (header : JValue) : Except Unit JValue :=
  jgetD header "similarity" (.str "0")

/-- The title fallback chain of lines 134-138:
`get("title") or get("jp_name") or get("eng_name") or get("source") or "未知"`. -/
def saucenao_title (result_data : JValue) : Except Unit JValue :=
  match result_data with
  | .obj fs =>
    .ok (pyOr ((List.lookup "title" fs).getD .null)
        (pyOr ((List.lookup "jp_name" fs).getD .null)
        (pyOr ((List.lookup "eng_name" fs).getD .null)
        (pyOr ((List.lookup "source" fs).getD .null) (.str "未知")))))
  | _ => .error ()

/-- The author fallback chain of lines 141-144:
`get("author") or get("member_name") or get("creator") or "未知"`. -/
def saucenao_author (result_data : JValue) : Except Unit JValue :=
  match result_data with
  | .obj fs =>
    .ok (pyOr ((List.lookup "author" fs).getD .null)
        (pyOr ((List.lookup "member_name" fs).getD .null)
        (pyOr ((List.lookup "creator" fs).getD .null) (.str "未知"))))
  | _ => .error ()

/-- Line 147: `(result_data.get("ext_urls", [\x7b\x7d])[0] if
result_data.get("ext_urls") else None) or ""`. When `ext_urls` is truthy it
is present, so the defaulted `.get` returns the stored value and `[0]` is
applied to it. -/
def saucenao_source_url (result_data : JValue) : Except Unit JValue :=
  match result_data with
  | .obj fs =>
    let ext := (List.lookup "ext_urls" fs).getD .null
    if isTruthy ext then
      Except.bind (pyIndex0 ext) fun v => .ok (pyOr v (.str ""))
    else .ok (pyOr .null (.str ""))
  | _ => .error ()

/-- The text block built by `+=` at lines 150-160: similarity line (with a
trailing blank line), title line, author line, then the source line only
when `source_url` is truthy and the database line only when `index_name`
is truthy. -/
def format_saucenao (similarity title author source_url index_name : JValue) : String :=
  let t1 := "🔍 相似度: " ++ pyStr similarity ++ "%\n\n"
  let t2 := t1 ++ "📝 标题: " ++ pyStr title ++ "\n"
  let t3 := t2 ++ "👤 作者: " ++ pyStr author ++ "\n"
  let t4 := if isTruthy source_url then t3 ++ "🔗 来源: " ++ pyStr source_url ++ "\n" else t3
  if isTruthy index_name then t4 ++ "📚 数据库: " ++ pyStr index_name else t4

/-- The body of `_parse_saucenao_response` (lines 120-162) before its
`except` clause: any raising step propagates as `.error`. -/
def parse_core (data : JValue) : Except Unit (Option String) :=
  Except.bind (jgetD data "results" (.list [])) fun results =>
  if !isTruthy results then .ok none
  else
  Except.bind (pyIndex0 results) fun first_result =>
  Except.bind (jgetD first_result "header" (.obj [])) fun header =>
  Except.bind (jgetD first_result "data" (.obj [])) fun result_data =>
  Except.bind (saucenao_similarity header) fun similarity =>
  Except.bind (saucenao_title result_data) fun title =>
  Except.bind (saucenao_author result_data) fun author =>
  Except.bind (saucenao_source_url result_data) fun source_url =>
  Except.bind (jgetD header "index_name" (.str "")) fun index_name =>
  .ok (some (format_saucenao similarity title author source_url index_name))

/-- `_parse_saucenao_response` (lines 118-166): the `try/except` turns any
internal exception into the `None` sentinel. -/
def parse_saucenao_response (data : JValue) : Option String :=
  match parse_core data with
  | .ok r => r
  | .error _ => none

/-- `_search_image_by_url` (lines 90-116): build the params, issue the one
GET, parse on status 200, return `None` on non-200 status, transport error
or JSON decode failure. The second component records the requests issued
(always exactly the one). -/
def search_image_by_url (api_key : JValue) (http : HttpRequest → HttpResult)
    (image_url : JValue) : Option String × List HttpRequest :=
  let req : HttpRequest := ⟨saucenao_api_url, search_params api_key image_url⟩
  let result :=
    match http req with
    | .transport_error => none
    | .response status body =>
      if status = 200 then
        match body with
        | .ok data => parse_saucenao_response data
        | .error _ => none
      else none
  (result, [req])

/-- `_create_response` (lines 168-179): build the response dict and return
it only when the host framework validates it, else an empty dict. -/
def create_response (plugin_name : String) (validate : JValue → Bool)
    (response_text : String) : JValue :=
  let response : JValue :=
    .obj [("handled", .bool true), ("plugin_name", .str plugin_name),
          ("response", .str response_text)]
  if validate response then response else .obj []

/-- The fixed fallback text of line 58. -/
def no_result_message : String := "没有找到相似的图片哦～"

/-- The body of `_handle_image_search_event` (lines 48-58) before its
`except` clause: extract images, return `None` when empty, check the
trigger tag, search `images[0]`, and wrap `search_result or
"没有找到相似的图片哦～"` in a response dict. -/
def handle_core (trigger_tag : String) (api_key : JValue) (plugin_name : String)
    (validate : JValue → Bool) (http : HttpRequest → HttpResult) (data : JValue) :
    Except Unit (Option JValue × List HttpRequest) :=
  Except.bind (extract_images_from_note data) fun images =>
  match images with
  | [] => .ok (none, [])
  | image_url :: _ =>
    Except.bind (has_trigger_tag trigger_tag data) fun trig =>
    if !trig then .ok (none, [])
    else
      let sr := search_image_by_url api_key http image_url
      let text :=
        match sr.1 with
        | some s => if s = "" then no_result_message else s
        | none => no_result_message
      .ok (some (create_response plugin_name validate text), sr.2)

/-- `_handle_image_search_event` (lines 46-61): the outer `try/except`
turns any exception into `None`; every raising step precedes the HTTP
call, so no request has been issued on the error path. -/
def handle_image_search_event (trigger_tag : String) (api_key : JValue)
    (plugin_name : String) (validate : JValue → Bool)
    (http : HttpRequest → HttpResult) (data : JValue) :
    Option JValue × List HttpRequest :=
  match handle_core trigger_tag api_key plugin_name validate http data with
  | .ok r => r
  | .error _ => (none, [])

/-- `on_mention` (lines 38-40): delegates to the shared handler (the
`action_desc` argument only feeds logging). -/
def on_mention (trigger_tag : String) (api_key : JValue) (plugin_name : String)
    (validate : JValue → Bool) (http : HttpRequest → HttpResult)
    (mention_data : JValue) : Option JValue × List HttpRequest :=
  handle_image_search_event trigger_tag api_key plugin_name validate http mention_data

/-- `on_message` (lines 42-44): delegates to the shared handler. -/
def on_message (trigger_tag : String) (api_key : JValue) (plugin_name : String)
    (validate : JValue → Bool) (http : HttpRequest → HttpResult)
    (message_data : JValue) : Option JValue × List HttpRequest :=
  handle_image_search_event trigger_tag api_key plugin_name validate http message_data

/-! ## Spec-side definitions

Written from the wording of the specification and claims, to be compared
with the code-derived functions above. -/

/-- Spec wording (claim C10): a well-formed image-typed attachment entry
contributes its primary URL — the `url` field when truthy, else the
`thumbnailUrl` field when truthy; entries that are not mappings, are not
image-typed, or yield no truthy URL contribute nothing. -/
def spec_entry_url (f : JValue) : Option JValue :=
  match f with
  | .obj fields =>
    match (List.lookup "type" fields).getD (.str "") with
    | .str t =>
      if pyStartsWith t "image/" then
        let u := pyOr ((List.lookup "url" fields).getD .null)
                      ((List.lookup "thumbnailUrl" fields).getD .null)
        if isTruthy u then some u else none
      else none
    | _ => none
  | _ => none

/-- Spec wording (claim C1): an attachment "whose type field starts with
image/". -/
def spec_is_image (f : JValue) : Bool :=
  match f with
  | .obj fields =>
    match (List.lookup "type" fields).getD (.str "") with
    | .str t => pyStartsWith t "image/"
    | _ => false
  | _ => false

/-- Spec wording (claim C1): the attachment's URL, "preferring the
attachment's url field over its thumbnailUrl field when both are
truthy". -/
def spec_attachment_url (f : JValue) : Option JValue :=
  match f with
  | .obj fields =>
    let u := (List.lookup "url" fields).getD .null
    let t := (List.lookup "thumbnailUrl" fields).getD .null
    if isTruthy u then some u else if isTruthy t then some t else none
  | _ => none

/-- Spec wording (claim C1): "the URL of the first such attachment in list
order". -/
def spec_first_image_url (fs : List JValue) : Option JValue :=
  match fs.find? spec_is_image with
  | some f => spec_attachment_url f
  | none => none

/-- A files-list entry on which the extraction loop cannot raise: either
not a mapping (skipped by `isinstance`), or a mapping whose defaulted
`type` field is a string (so `.startswith` is legal). -/
def entry_type_ok (f : JValue) : Bool :=
  match f with
  | .obj fields =>
    match (List.lookup "type" fields).getD (.str "") with
    | .str _ => true
    | _ => false
  | _ => true

/-- Spec wording (claim C8): the formatted block as an explicit fixed-order
concatenation — similarity line, blank line, title line, author line,
source line only when the source URL is truthy, database line only when
the label is non-empty. -/
def spec_format_saucenao (similarity title author source_url index_name : JValue) : String :=
  "🔍 相似度: " ++ pyStr similarity ++ "%\n" ++ "\n" ++
  ("📝 标题: " ++ pyStr title ++ "\n") ++
  ("👤 作者: " ++ pyStr author ++ "\n") ++
  (if isTruthy source_url then "🔗 来源: " ++ pyStr source_url ++ "\n" else "") ++
  (if isTruthy index_name then "📚 数据库: " ++ pyStr index_name else "")

/-- The spec's end-to-end example event: text "check this #nao", one
image/png attachment with a direct URL. -/
def sample_event : JValue :=
  .obj [("note", .obj [("text", .str "check this #nao"),
    ("files", .list [.obj [("type", .str "image/png"), ("url", .str "http://x/a.png")]])])]

/-! ## Shared lemmas -/

theorem strAppendAssoc (a b c : String) : a ++ b ++ c = a ++ (b ++ c) :=
  congrArg String.mk (List.append_assoc a.data b.data c.data)

theorem strAppendEmpty (a : String) : a ++ "" = a :=
  congrArg String.mk (List.append_nil a.data)

theorem extract_images_loop_eq (fs : List JValue) (acc : List JValue)
    (h : ∀ f ∈ fs, entry_type_ok f = true) :
    extract_images_loop fs acc = .ok (acc ++ fs.filterMap spec_entry_url) := by
  induction fs generalizing acc with
  | nil => simp [extract_images_loop]
  | cons f rest ih =>
    have hf : entry_type_ok f = true := h f (List.mem_cons_self f rest)
    have hrest : ∀ g ∈ rest, entry_type_ok g = true :=
      fun g hg => h g (List.mem_cons_of_mem f hg)
    cases f with
    | obj fields =>
      simp only [entry_type_ok] at hf
      cases hty : (List.lookup "type" fields).getD (.str "") with
      | str s =>
        simp only [extract_images_loop, spec_entry_url, hty, List.filterMap_cons]
        by_cases hst : pyStartsWith s "image/" = true
        · simp only [hst, if_true]
          by_cases htr : isTruthy (pyOr ((List.lookup "url" fields).getD .null)
              ((List.lookup "thumbnailUrl" fields).getD .null)) = true
          · simp [htr, ih _ hrest]
          · simp only [Bool.not_eq_true] at htr
            simp [htr, ih _ hrest]
        · simp only [Bool.not_eq_true] at hst
          simp [hst, ih _ hrest]
      | null => rw [hty] at hf; simp at hf
      | bool b => rw [hty] at hf; simp at hf
      | num n => rw [hty] at hf; simp at hf
      | list xs => rw [hty] at hf; simp at hf
      | obj gs => rw [hty] at hf; simp at hf
    | null => simp [extract_images_loop, spec_entry_url, ih _ hrest]
    | bool b => simp [extract_images_loop, spec_entry_url, ih _ hrest]
    | num n => simp [extract_images_loop, spec_entry_url, ih _ hrest]
    | str s => simp [extract_images_loop, spec_entry_url, ih _ hrest]
    | list xs => simp [extract_images_loop, spec_entry_url, ih _ hrest]

theorem spec_entry_url_of_is_image {f : JValue} (h : spec_is_image f = true) :
    spec_entry_url f = spec_attachment_url f := by
  cases f with
  | obj fields =>
    cases hty : (List.lookup "type" fields).getD (.str "") with
    | str s =>
      have hs : pyStartsWith s "image/" = true := by
        simpa [spec_is_image, hty] using h
      simp only [spec_entry_url, spec_attachment_url, hty, hs, if_true]
      by_cases hu : isTruthy ((List.lookup "url" fields).getD .null) = true
      · simp [pyOr, hu]
      · simp only [Bool.not_eq_true] at hu
        simp [pyOr, hu]
    | null => simp [spec_is_image, hty] at h
    | bool b => simp [spec_is_image, hty] at h
    | num n => simp [spec_is_image, hty] at h
    | list xs => simp [spec_is_image, hty] at h
    | obj gs => simp [spec_is_image, hty] at h
  | null => simp [spec_is_image] at h
  | bool b => simp [spec_is_image] at h
  | num n => simp [spec_is_image] at h
  | str s => simp [spec_is_image] at h
  | list xs => simp [spec_is_image] at h

theorem spec_entry_url_of_not_image {f : JValue} (h : spec_is_image f = false) :
    spec_entry_url f = none := by
  cases f with
  | obj fields =>
    cases hty : (List.lookup "type" fields).getD (.str "") with
    | str s =>
      have hs : pyStartsWith s "image/" = false := by
        simpa [spec_is_image, hty] using h
      simp [spec_entry_url, hty, hs]
    | null => simp [spec_entry_url, hty]
    | bool b => simp [spec_entry_url, hty]
    | num n => simp [spec_entry_url, hty]
    | list xs => simp [spec_entry_url, hty]
    | obj gs => simp [spec_entry_url, hty]
  | null => simp [spec_entry_url]
  | bool b => simp [spec_entry_url]
  | num n => simp [spec_entry_url]
  | str s => simp [spec_entry_url]
  | list xs => simp [spec_entry_url]

theorem spec_first_image_url_head {fs : List JValue} {u : JValue}
    (h : spec_first_image_url fs = some u) :
    (fs.filterMap spec_entry_url).head? = some u := by
  induction fs with
  | nil => simp [spec_first_image_url, List.find?] at h
  | cons f rest ih =>
    by_cases hf : spec_is_image f = true
    · have hfind : List.find? spec_is_image (f :: rest) = some f :=
        List.find?_cons_of_pos _ hf
      have ha : spec_attachment_url f = some u := by
        simpa [spec_first_image_url, hfind] using h
      rw [List.filterMap_cons, spec_entry_url_of_is_image hf, ha]
      rfl
    · have hfind : List.find? spec_is_image (f :: rest) = List.find? spec_is_image rest :=
        List.find?_cons_of_neg _ hf
      have h' : spec_first_image_url rest = some u := by
        simpa [spec_first_image_url, hfind] using h
      rw [List.filterMap_cons, spec_entry_url_of_not_image (by simpa using hf)]
      exact ih h'

theorem search_params_url (ak u : JValue) :
    List.lookup "url" (search_params ak u) = some u := by
  by_cases h : isTruthy ak = true <;>
    simp [search_params, h, List.lookup]

theorem search_params_output_type (ak u : JValue) :
    List.lookup "output_type" (search_params ak u) = some (.str "2") := by
  by_cases h : isTruthy ak = true <;>
    simp [search_params, h, List.lookup]

theorem search_params_numres (ak u : JValue) :
    List.lookup "numres" (search_params ak u) = some (.str "3") := by
  by_cases h : isTruthy ak = true <;>
    simp [search_params, h, List.lookup]

theorem search_params_db (ak u : JValue) :
    List.lookup "db" (search_params ak u) = some (.str "999") := by
  by_cases h : isTruthy ak = true <;>
    simp [search_params, h, List.lookup]

theorem search_params_api_key (ak u : JValue) :
    List.lookup "api_key" (search_params ak u) =
      if isTruthy ak then some ak else none := by
  by_cases h : isTruthy ak = true <;>
    simp [search_params, h, List.lookup]

/-- Every request the handler issues targets the fixed endpoint and
carries `search_params` for some image URL. -/
theorem handle_requests_shape (trigger_tag : String) (api_key : JValue)
    (plugin_name : String) (validate : JValue → Bool)
    (http : HttpRequest → HttpResult) (data : JValue) :
    (handle_image_search_event trigger_tag api_key plugin_name validate http data).2 = [] ∨
    ∃ u, (handle_image_search_event trigger_tag api_key plugin_name validate http data).2 =
      [⟨saucenao_api_url, search_params api_key u⟩] := by
  unfold handle_image_search_event handle_core
  cases hex : extract_images_from_note data with
  | error e => simp [Except.bind]
  | ok images =>
    cases images with
    | nil => simp [Except.bind]
    | cons u rest =>
      cases htr : has_trigger_tag trigger_tag data with
      | error e => simp [Except.bind]
      | ok trig =>
        cases trig with
        | false => simp [Except.bind]
        | true =>
          right
          exact ⟨u, by simp [Except.bind, search_image_by_url]⟩

/-- Under the structural hypotheses of claims C1/C10 the extraction
succeeds and returns exactly the URLs of the qualifying attachments in
list order. -/
theorem extract_images_eq (data : JValue) (nf : List (String × JValue))
    (fs : List JValue)
    (hnote : jgetD data "note" data = .ok (.obj nf))
    (hfiles : List.lookup "files" nf = some (.list fs))
    (hok : ∀ f ∈ fs, entry_type_ok f = true) :
    extract_images_from_note data = .ok (fs.filterMap spec_entry_url) := by
  unfold extract_images_from_note
  rw [hnote]
  simp only [Except.bind]
  have hf : jgetD (.obj nf) "files" (.list []) = .ok (.list fs) := by
    simp [jgetD, hfiles]
  rw [hf]
  simp only [Except.bind]
  simpa using extract_images_loop_eq fs [] hok

/-- Under the structural hypotheses of claim C1 the trigger check
succeeds with the substring-test result. -/
theorem has_trigger_tag_eq (trigger_tag : String) (data : JValue)
    (nf : List (String × JValue)) (t : String)
    (hnote : jgetD data "note" data = .ok (.obj nf))
    (htext : List.lookup "text" nf = some (.str t)) :
    has_trigger_tag trigger_tag data = .ok (strContainsSub t trigger_tag) := by
  unfold has_trigger_tag
  rw [hnote]
  simp only [Except.bind]
  have ht : jgetD (.obj nf) "text" (.str "") = .ok (.str t) := by
    simp [jgetD, htext]
  rw [ht]
  simp only [Except.bind]
  have hor : pyOr (.str t) (.str "") = .str t := by
    by_cases h0 : t = ""
    · subst h0; rfl
    · simp [pyOr, isTruthy, h0]
  rw [hor]

/-! ## Claims -/

/-- C1: For every inbound event containing at least one attachment whose
type field starts with "image/" and whose note text contains the
configured trigger tag as a substring (case-sensitive), the handler
selects as the search URL the URL of the first such attachment in list
order, preferring the attachment's "url" field over its "thumbnailUrl"
field when both are truthy. (`spec_first_image_url` is the claim's
wording; the conclusion shows the single issued request carries exactly
that URL as its "url" parameter.) -/
theorem C1_search_url_is_first_image (trigger_tag : String) (api_key : JValue)
    (plugin_name : String) (validate : JValue → Bool) (http : HttpRequest → HttpResult)
    (data : JValue) (nf : List (String × JValue)) (t : String)
    (fs : List JValue) (u : JValue)
    (hnote : jgetD data "note" data = .ok (.obj nf))
    (htext : List.lookup "text" nf = some (.str t))
    (htag : strContainsSub t trigger_tag = true)
    (hfiles : List.lookup "files" nf = some (.list fs))
    (hok : ∀ f ∈ fs, entry_type_ok f = true)
    (hu : spec_first_image_url fs = some u) :
    (handle_image_search_event trigger_tag api_key plugin_name validate http data).2 =
      [⟨saucenao_api_url, search_params api_key u⟩] ∧
    List.lookup "url" (search_params api_key u) = some u := by
  have hex := extract_images_eq data nf fs hnote hfiles hok
  have htrig : has_trigger_tag trigger_tag data = .ok true := by
    rw [has_trigger_tag_eq trigger_tag data nf t hnote htext, htag]
  obtain ⟨tail, hl⟩ : ∃ tail, fs.filterMap spec_entry_url = u :: tail := by
    have hh := spec_first_image_url_head hu
    cases hl2 : fs.filterMap spec_entry_url with
    | nil => rw [hl2] at hh; simp at hh
    | cons a tl =>
      rw [hl2] at hh
      simp only [List.head?_cons, Option.some.injEq] at hh
      exact ⟨tl, by rw [hh]⟩
  refine ⟨?_, search_params_url api_key u⟩
  unfold handle_image_search_event handle_core
  rw [hex, hl]
  simp only [Except.bind]
  rw [htrig]
  simp [Except.bind, search_image_by_url]

theorem C1_witness :
    (handle_image_search_event "#nao" .null "nao" (fun _ => true)
      (fun _ => .transport_error) sample_event).2 =
      [⟨saucenao_api_url, search_params .null (.str "http://x/a.png")⟩] ∧
    List.lookup "url" (search_params .null (.str "http://x/a.png")) =
      some (.str "http://x/a.png") :=
  C1_search_url_is_first_image "#nao" .null "nao" (fun _ => true)
    (fun _ => .transport_error) sample_event
    [("text", .str "check this #nao"),
     ("files", .list [.obj [("type", .str "image/png"), ("url", .str "http://x/a.png")]])]
    "check this #nao"
    [.obj [("type", .str "image/png"), ("url", .str "http://x/a.png")]]
    (.str "http://x/a.png")
    rfl rfl rfl rfl
    (by intro f hf; rw [List.mem_singleton] at hf; subst hf; rfl)
    rfl

/-- C2: For every inbound event that either yields no image attachment URL
or whose note text does not contain the configured trigger tag, the
handler returns None and no HTTP search request is issued (the request
log is empty, i.e. the search client is never invoked). -/
theorem C2_no_match_no_request (trigger_tag : String) (api_key : JValue)
    (plugin_name : String) (validate : JValue → Bool)
    (http : HttpRequest → HttpResult) (data : JValue)
    (h : extract_images_from_note data = .ok [] ∨
      ((∃ images, extract_images_from_note data = .ok images) ∧
        has_trigger_tag trigger_tag data = .ok false)) :
    handle_image_search_event trigger_tag api_key plugin_name validate http data =
      (none, []) := by
  unfold handle_image_search_event handle_core
  rcases h with h | ⟨⟨images, himg⟩, htr⟩
  · rw [h]; simp [Except.bind]
  · rw [himg]
    cases images with
    | nil => simp [Except.bind]
    | cons u rest => simp [Except.bind, htr]

theorem C2_witness :
    handle_image_search_event "#other" .null "nao" (fun _ => true)
      (fun _ => .transport_error) sample_event = (none, []) :=
  C2_no_match_no_request "#other" .null "nao" (fun _ => true)
    (fun _ => .transport_error) sample_event
    (Or.inr ⟨⟨[.str "http://x/a.png"], rfl⟩, rfl⟩)

/-- C3: For every search call, the outgoing query parameters always
include output_type=2, the image URL, numres=3, and db=999, and include
the api_key parameter if and only if an API key is configured (truthy);
when no key is configured the api_key parameter is omitted entirely
rather than sent with an empty value. -/
theorem C3_query_params (trigger_tag : String) (api_key : JValue)
    (plugin_name : String) (validate : JValue → Bool)
    (http : HttpRequest → HttpResult) (data : JValue) (req : HttpRequest)
    (hreq : req ∈ (handle_image_search_event trigger_tag api_key plugin_name
      validate http data).2) :
    req.url = saucenao_api_url ∧
    List.lookup "output_type" req.params = some (.str "2") ∧
    (∃ u, List.lookup "url" req.params = some u) ∧
    List.lookup "numres" req.params = some (.str "3") ∧
    List.lookup "db" req.params = some (.str "999") ∧
    ((List.lookup "api_key" req.params).isSome ↔ isTruthy api_key = true) ∧
    (isTruthy api_key = true → List.lookup "api_key" req.params = some api_key) := by
  rcases handle_requests_shape trigger_tag api_key plugin_name validate http data with
    h | ⟨u, h⟩
  · rw [h] at hreq; simp at hreq
  · rw [h, List.mem_singleton] at hreq
    subst hreq
    refine ⟨rfl, search_params_output_type _ _, ⟨u, search_params_url _ _⟩,
      search_params_numres _ _, search_params_db _ _, ?_, ?_⟩
    · rw [search_params_api_key]
      by_cases hk : isTruthy api_key = true <;> simp [hk]
    · intro hk
      rw [search_params_api_key]
      simp [hk]

theorem C3_witness :
    (⟨saucenao_api_url, search_params (.str "KEY") (.str "http://x/a.png")⟩ : HttpRequest).url
        = saucenao_api_url ∧
    List.lookup "output_type"
      (search_params (.str "KEY") (.str "http://x/a.png")) = some (.str "2") ∧
    (∃ u, List.lookup "url" (search_params (.str "KEY") (.str "http://x/a.png")) = some u) ∧
    List.lookup "numres"
      (search_params (.str "KEY") (.str "http://x/a.png")) = some (.str "3") ∧
    List.lookup "db"
      (search_params (.str "KEY") (.str "http://x/a.png")) = some (.str "999") ∧
    ((List.lookup "api_key"
      (search_params (.str "KEY") (.str "http://x/a.png"))).isSome ↔
        isTruthy (.str "KEY") = true) ∧
    (isTruthy (.str "KEY") = true → List.lookup "api_key"
      (search_params (.str "KEY") (.str "http://x/a.png")) = some (.str "KEY")) :=
  C3_query_params "#nao" (.str "KEY") "nao" (fun _ => true)
    (fun _ => .transport_error) sample_event
    ⟨saucenao_api_url, search_params (.str "KEY") (.str "http://x/a.png")⟩
    (List.Mem.head _)

/-- C10: For every event whose files list contains entries that are not
mappings (e.g. strings or None mixed in with attachment objects), image
extraction skips those entries without raising and still returns, in
list order, the URLs of the well-formed image-typed entries
(`spec_entry_url`, the claim's wording of which entries contribute). -/
theorem C10_extraction_skips_non_mappings (data : JValue)
    (nf : List (String × JValue)) (fs : List JValue)
    (hnote : jgetD data "note" data = .ok (.obj nf))
    (hfiles : List.lookup "files" nf = some (.list fs))
    (hok : ∀ f ∈ fs, entry_type_ok f = true) :
    extract_images_from_note data = .ok (fs.filterMap spec_entry_url) :=
  extract_images_eq data nf fs hnote hfiles hok

theorem C10_witness :
    extract_images_from_note (.obj [("files", .list
      [.str "junk", .null,
       .obj [("type", .str "image/png"), ("url", .str "http://a")],
       .num 7,
       .obj [("type", .str "text/plain")],
       .obj [("type", .str "image/jpeg"), ("thumbnailUrl", .str "http://b")]])]) =
    .ok [.str "http://a", .str "http://b"] :=
  C10_extraction_skips_non_mappings
    (.obj [("files", .list
      [.str "junk", .null,
       .obj [("type", .str "image/png"), ("url", .str "http://a")],
       .num 7,
       .obj [("type", .str "text/plain")],
       .obj [("type", .str "image/jpeg"), ("thumbnailUrl", .str "http://b")]])])
    [("files", .list
      [.str "junk", .null,
       .obj [("type", .str "image/png"), ("url", .str "http://a")],
       .num 7,
       .obj [("type", .str "text/plain")],
       .obj [("type", .str "image/jpeg"), ("thumbnailUrl", .str "http://b")]])]
    [.str "junk", .null,
     .obj [("type", .str "image/png"), ("url", .str "http://a")],
     .num 7,
     .obj [("type", .str "text/plain")],
     .obj [("type", .str "image/jpeg"), ("thumbnailUrl", .str "http://b")]]
    rfl rfl
    (by
      intro f hf
      simp only [List.mem_cons, List.not_mem_nil, or_false] at hf
      rcases hf with rfl | rfl | rfl | rfl | rfl | rfl <;> rfl)

/-- C4: For every parsed JSON response body in which the "results" key is
absent or maps to an empty list, the formatter returns the "no result"
sentinel (None), and the handler then substitutes the fixed "nothing
found" message as the response text (shown on the spec's end-to-end
sample event, with the network delivering exactly that body). -/
theorem C4_empty_results_sentinel (d : List (String × JValue)) (api_key : JValue)
    (plugin_name : String) (validate : JValue → Bool)
    (h : List.lookup "results" d = none ∨ List.lookup "results" d = some (.list [])) :
    parse_saucenao_response (.obj d) = none ∧
    handle_image_search_event "#nao" api_key plugin_name validate
      (fun _ => .response 200 (.ok (.obj d))) sample_event =
      (some (create_response plugin_name validate no_result_message),
       [⟨saucenao_api_url, search_params api_key (.str "http://x/a.png")⟩]) := by
  have hparse : parse_saucenao_response (.obj d) = none := by
    unfold parse_saucenao_response parse_core
    rcases h with h | h <;> simp [jgetD, h, Except.bind, isTruthy]
  refine ⟨hparse, ?_⟩
  have hex : extract_images_from_note sample_event = .ok [.str "http://x/a.png"] := rfl
  have htrig : has_trigger_tag "#nao" sample_event = .ok true := rfl
  unfold handle_image_search_event handle_core
  rw [hex]
  simp only [Except.bind]
  rw [htrig]
  simp [Except.bind, search_image_by_url, hparse, no_result_message]

theorem C4_witness :
    parse_saucenao_response (.obj [("results", .list [])]) = none ∧
    handle_image_search_event "#nao" .null "nao" (fun _ => true)
      (fun _ => .response 200 (.ok (.obj [("results", .list [])]))) sample_event =
      (some (create_response "nao" (fun _ => true) no_result_message),
       [⟨saucenao_api_url, search_params .null (.str "http://x/a.png")⟩]) :=
  C4_empty_results_sentinel [("results", .list [])] .null "nao" (fun _ => true)
    (Or.inr rfl)

/-- C5: For every HTTP response with a status other than 200, the search
client returns the "no result" sentinel (None) without raising, and the
resulting user-visible response text is the same fixed "nothing found"
message as for a genuine zero-result search — transport errors and empty
results are indistinguishable to the end user. (The client is a total
function into `Option`, so no exception can escape it.) -/
theorem C5_non_200_sentinel (status : Nat) (body : Except Unit JValue)
    (api_key : JValue) (plugin_name : String) (validate : JValue → Bool)
    (image_url : JValue) (hst : status ≠ 200) :
    search_image_by_url api_key (fun _ => .response status body) image_url =
      (none, [⟨saucenao_api_url, search_params api_key image_url⟩]) ∧
    handle_image_search_event "#nao" api_key plugin_name validate
      (fun _ => .response status body) sample_event =
      (some (create_response plugin_name validate no_result_message),
       [⟨saucenao_api_url, search_params api_key (.str "http://x/a.png")⟩]) := by
  have hsearch : ∀ u : JValue,
      search_image_by_url api_key (fun _ => .response status body) u =
        (none, [⟨saucenao_api_url, search_params api_key u⟩]) := by
    intro u
    simp [search_image_by_url, hst]
  refine ⟨hsearch image_url, ?_⟩
  have hex : extract_images_from_note sample_event = .ok [.str "http://x/a.png"] := rfl
  have htrig : has_trigger_tag "#nao" sample_event = .ok true := rfl
  unfold handle_image_search_event handle_core
  rw [hex]
  simp only [Except.bind]
  rw [htrig]
  simp [Except.bind, hsearch, no_result_message]

theorem C5_witness :
    search_image_by_url (.str "KEY") (fun _ => .response 404 (.ok .null)) (.str "http://x/a.png") =
      (none, [⟨saucenao_api_url, search_params (.str "KEY") (.str "http://x/a.png")⟩]) ∧
    handle_image_search_event "#nao" (.str "KEY") "nao" (fun _ => true)
      (fun _ => .response 404 (.ok .null)) sample_event =
      (some (create_response "nao" (fun _ => true) no_result_message),
       [⟨saucenao_api_url, search_params (.str "KEY") (.str "http://x/a.png")⟩]) :=
  C5_non_200_sentinel 404 (.ok .null) (.str "KEY") "nao" (fun _ => true)
    (.str "http://x/a.png") (by decide)

/-- C6: For every search response whose first result's data mapping has no
truthy value under any of "title", "jp_name", "eng_name", or "source",
the formatted title (the value `_parse_saucenao_response` interpolates
into its title line) is "未知"; when several of those fields are present,
the first truthy one in that priority order is used (`List.find?
isTruthy` over the candidates in priority order is the claim's
wording). -/
theorem C6_title_fallback (rd : List (String × JValue)) :
    ((∀ k ∈ (["title", "jp_name", "eng_name", "source"] : List String),
        isTruthy ((List.lookup k rd).getD .null) = false) →
      saucenao_title (.obj rd) = .ok (.str "未知")) ∧
    saucenao_title (.obj rd) = .ok
      ((((["title", "jp_name", "eng_name", "source"] : List String).map
          (fun k => (List.lookup k rd).getD .null)).find? isTruthy).getD (.str "未知")) := by
  constructor
  · intro h
    have h1 := h "title" (by simp)
    have h2 := h "jp_name" (by simp)
    have h3 := h "eng_name" (by simp)
    have h4 := h "source" (by simp)
    simp [saucenao_title, pyOr, h1, h2, h3, h4]
  · simp only [saucenao_title, List.map_cons, List.map_nil, List.find?]
    by_cases h1 : isTruthy ((List.lookup "title" rd).getD .null) = true
    · simp [pyOr, h1]
    · simp only [Bool.not_eq_true] at h1
      by_cases h2 : isTruthy ((List.lookup "jp_name" rd).getD .null) = true
      · simp [pyOr, h1, h2]
      · simp only [Bool.not_eq_true] at h2
        by_cases h3 : isTruthy ((List.lookup "eng_name" rd).getD .null) = true
        · simp [pyOr, h1, h2, h3]
        · simp only [Bool.not_eq_true] at h3
          by_cases h4 : isTruthy ((List.lookup "source" rd).getD .null) = true
          · simp [pyOr, h1, h2, h3, h4]
          · simp only [Bool.not_eq_true] at h4
            simp [pyOr, h1, h2, h3, h4]

theorem C6_witness :
    saucenao_title (.obj []) = .ok (.str "未知") :=
  (C6_title_fallback []).1 (by intro k _; rfl)

/-- The response used to refute claim C7: the first result's header has
`similarity` present but mapped to None. -/
def c7_response : JValue :=
  .obj [("results", .list [.obj [("header", .obj [("similarity", .null)]),
    ("data", .obj [])]])]

/-- C7 counterexample: the claim says a present-but-falsy similarity (None
or empty string) is shown as "0"; on this response the code keeps the
stored None and formats the line as "None%", not "0%". -/
theorem C7_counterexample :
    parse_saucenao_response c7_response =
      some "🔍 相似度: None%\n\n📝 标题: 未知\n👤 作者: 未知\n" ∧
    parse_saucenao_response c7_response ≠
      some "🔍 相似度: 0%\n\n📝 标题: 未知\n👤 作者: 未知\n" :=
  ⟨rfl, by decide⟩

/-- C7 amended: the similarity value defaults to "0" only when the
"similarity" key is absent from the header; when the key is present its
stored value is used verbatim, even when falsy (None, empty string), so
the first-truthy fallback semantics does not apply to this field. -/
theorem C7_amended_similarity (h : List (String × JValue)) :
    (List.lookup "similarity" h = none →
      saucenao_similarity (.obj h) = .ok (.str "0")) ∧
    (∀ v, List.lookup "similarity" h = some v →
      saucenao_similarity (.obj h) = .ok v) := by
  constructor
  · intro hh
    simp [saucenao_similarity, jgetD, hh]
  · intro v hh
    simp [saucenao_similarity, jgetD, hh]

theorem C7_witness :
    saucenao_similarity (.obj []) = .ok (.str "0") ∧
    saucenao_similarity (.obj [("similarity", .null)]) = .ok .null :=
  ⟨(C7_amended_similarity []).1 rfl,
   (C7_amended_similarity [("similarity", .null)]).2 .null rfl⟩

/-- The concrete response of claim C8. -/
def c8_response : JValue :=
  .obj [("results", .list [.obj
    [("header", .obj [("similarity", .str "87.5"), ("index_name", .str "H-Misc")]),
     ("data", .obj [("title", .str "Foo"), ("author", .str "Bar"),
       ("ext_urls", .list [.str "http://src"])])]])]

/-- The text the formatter produces for `c8_response`. -/
def c8_text : String :=
  "🔍 相似度: 87.5%\n\n📝 标题: Foo\n👤 作者: Bar\n🔗 来源: http://src\n📚 数据库: H-Misc"

/-- C8: The formatted text block always lists fields in the fixed order
similarity, title, author, then source link (included only when truthy)
and database label (included only when non-empty) — `format_saucenao`
equals the spec-worded `spec_format_saucenao` — and in particular the
claim's concrete response formats to a text containing "87.5%", "Foo",
"Bar", "http://src", "H-Misc" in that order. -/
theorem C8_field_order :
    (∀ similarity title author source_url index_name : JValue,
      format_saucenao similarity title author source_url index_name =
        spec_format_saucenao similarity title author source_url index_name) ∧
    parse_saucenao_response c8_response = some c8_text ∧
    ∃ p1 p2 p3 p4 p5 p6 : String, c8_text =
      p1 ++ "87.5%" ++ p2 ++ "Foo" ++ p3 ++ "Bar" ++ p4 ++ "http://src" ++
        p5 ++ "H-Misc" ++ p6 := by
  have m1 : ∀ X : String, "%\n" ++ ("\n" ++ X) = "%\n\n" ++ X := fun _ => rfl
  have m2 : ∀ X : String, "%\n\n" ++ ("📝 标题: " ++ X) = "%\n\n📝 标题: " ++ X :=
    fun _ => rfl
  have m3 : ∀ X : String, "\n" ++ ("👤 作者: " ++ X) = "\n👤 作者: " ++ X :=
    fun _ => rfl
  have m4 : ∀ X : String, "\n" ++ ("🔗 来源: " ++ X) = "\n🔗 来源: " ++ X :=
    fun _ => rfl
  have m5 : ∀ X : String, "\n" ++ ("📚 数据库: " ++ X) = "\n📚 数据库: " ++ X :=
    fun _ => rfl
  refine ⟨?_, rfl,
    "🔍 相似度: ", "\n\n📝 标题: ", "\n👤 作者: ", "\n🔗 来源: ", "\n📚 数据库: ", "",
    by decide⟩
  intro s t a u i
  unfold format_saucenao spec_format_saucenao
  by_cases hu : isTruthy u = true <;> by_cases hi : isTruthy i = true <;>
    simp [hu, hi, strAppendAssoc, strAppendEmpty, m1, m2, m3, m4, m5]

/-- C9: For every input mapping, including malformed ones (e.g. where
"note" maps to a non-mapping value, causing an exception during
extraction), `on_mention` and `on_message` return a value (a mapping or
None) and never let an exception propagate: the embedded handlers are
total into `Option`, and every internal exception (an `.error` of
`handle_core`, the body inside the source's outermost `try`) is mapped
to the None response with no request issued. -/
theorem C9_no_exception_propagates (trigger_tag : String) (api_key : JValue)
    (plugin_name : String) (validate : JValue → Bool)
    (http : HttpRequest → HttpResult) (data : JValue) :
    (∃ r reqs,
      on_mention trigger_tag api_key plugin_name validate http data = (r, reqs) ∧
      on_message trigger_tag api_key plugin_name validate http data = (r, reqs) ∧
      (r = none ∨ ∃ m, r = some m)) ∧
    (handle_core trigger_tag api_key plugin_name validate http data = .error () →
      on_mention trigger_tag api_key plugin_name validate http data = (none, []) ∧
      on_message trigger_tag api_key plugin_name validate http data = (none, [])) := by
  constructor
  · refine ⟨(handle_image_search_event trigger_tag api_key plugin_name validate http data).1,
      (handle_image_search_event trigger_tag api_key plugin_name validate http data).2,
      rfl, rfl, ?_⟩
    cases h : (handle_image_search_event trigger_tag api_key plugin_name validate http data).1 with
    | none => exact Or.inl rfl
    | some m => exact Or.inr ⟨m, rfl⟩
  · intro herr
    unfold on_mention on_message handle_image_search_event
    rw [herr]
    exact ⟨rfl, rfl⟩

theorem C9_witness :
    on_mention "#nao" .null "nao" (fun _ => true) (fun _ => .transport_error)
      (.obj [("note", .null)]) = (none, []) ∧
    on_message "#nao" .null "nao" (fun _ => true) (fun _ => .transport_error)
      (.obj [("note", .null)]) = (none, []) :=
  (C9_no_exception_propagates "#nao" .null "nao" (fun _ => true)
    (fun _ => .transport_error) (.obj [("note", .null)])).2 rfl

end Nao
